import Mathlib

/-!
Formal model of the circular metronome repository.  The repository has two
component variants sharing the same timing core: the plain circular metronome
(source file src/unnamed/part_000) and the trial variant with tap tempo,
session gating and a slowdown ramp (source file src/unnamed/part_001).

Timestamps, angular dot positions and beat durations are modelled as
rationals: the JavaScript source computes them with double-precision floats,
and on the concrete inputs examined here all arithmetic is exact in both
number systems.  BPM values are integers in the source (integer literals,
step 1, decrement 5, `Math.round` results) and are modelled as integers.
-/

namespace CircleMetronome

/-- JavaScript remainder `a % b` restricted to a nonnegative dividend and a
positive divisor, which is how the animation loop uses it
(`elapsedSinceLastBeat % beatDuration`): equal to `a - b * floor (a / b)`. -/
def jsMod (a b : ℚ) : ℚ := a - b * (⌊a / b⌋ : ℤ)

/-- JavaScript `Math.round x`, which is `floor (x + 1/2)`. -/
def jsRound (x : ℚ) : ℤ := ⌊x + 1 / 2⌋

/-- Result of one animation-frame callback of `animateMetronome` (identical in
part_000 lines 241-295 and part_001 lines 467-504): the updated
`lastBeatTimeRef` value, the number of `playClickTone` calls made by this
invocation, and the `dotPosition` passed to `setDotPosition`. -/
structure AnimResult where
  lastBeatTime : ℚ
  clicks : ℕ
  dotPosition : ℚ
  deriving Repr, DecidableEq

/-- One invocation of the `animate` callback at time `timestamp`, with the
current BPM `bpm` and the stored `lastBeatTimeRef` value `lastBeatTime`.
Transcribed from part_000 lines 257-283 (and the identical part_001 lines
482-494): `beatDuration = 60000 / bpm`; if `elapsedSinceLastBeat >=
beatDuration` then one click is played and `lastBeatTimeRef` advances by
`floor(elapsed / beatDuration) * beatDuration`; the dot position is computed
from the elapsed value read before that update, as in the source, where
`elapsedSinceLastBeat` is a local constant read once at the top of the
callback.  The local constants `beatDuration` and `elapsedSinceLastBeat` of
the source are inlined here. -/
def animateStep (bpm lastBeatTime timestamp : ℚ) : AnimResult :=
  if 60000 / bpm ≤ timestamp - lastBeatTime then
    { lastBeatTime := lastBeatTime +
        (⌊(timestamp - lastBeatTime) / (60000 / bpm)⌋ : ℤ) * (60000 / bpm)
      clicks := 1
      dotPosition := jsMod (timestamp - lastBeatTime) (60000 / bpm) / (60000 / bpm) * 360 }
  else
    { lastBeatTime := lastBeatTime
      clicks := 0
      dotPosition := jsMod (timestamp - lastBeatTime) (60000 / bpm) / (60000 / bpm) * 360 }

/-- The dot position produced by a frame does not depend on whether a beat
fired in that frame: both branches of `animateStep` compute it from the
elapsed time read at the top of the callback. -/
lemma animateStep_dotPosition (bpm lastBeatTime timestamp : ℚ) :
    (animateStep bpm lastBeatTime timestamp).dotPosition =
      jsMod (timestamp - lastBeatTime) (60000 / bpm) / (60000 / bpm) * 360 := by
  unfold animateStep
  split <;> rfl

/-- Lower bound of the JavaScript remainder for a positive divisor. -/
lemma jsMod_nonneg (a b : ℚ) (hb : 0 < b) : 0 ≤ jsMod a b := by
  have h1 : (⌊a / b⌋ : ℚ) ≤ a / b := Int.floor_le _
  have h2 : b * (⌊a / b⌋ : ℚ) ≤ b * (a / b) :=
    mul_le_mul_of_nonneg_left h1 hb.le
  have h3 : b * (a / b) = a := by field_simp
  unfold jsMod
  linarith

/-- Upper bound of the JavaScript remainder for a positive divisor. -/
lemma jsMod_lt (a b : ℚ) (hb : 0 < b) : jsMod a b < b := by
  have h1 : a / b < (⌊a / b⌋ : ℚ) + 1 := Int.lt_floor_add_one _
  have h2 : b * (a / b) < b * ((⌊a / b⌋ : ℚ) + 1) :=
    mul_lt_mul_of_pos_left h1 hb
  have h3 : b * (a / b) = a := by field_simp
  unfold jsMod
  nlinarith

/-- Remainder of an exact multiple of the divisor is zero. -/
lemma jsMod_natCast_mul (k : ℕ) (b : ℚ) (hb : 0 < b) :
    jsMod ((k : ℚ) * b) b = 0 := by
  unfold jsMod
  have h1 : (k : ℚ) * b / b = (k : ℚ) := mul_div_cancel_right₀ _ hb.ne'
  rw [h1, Int.floor_natCast]
  push_cast
  ring

/-- C1: on any animation sample with `elapsed = t - lastBeatTime >=
beatDuration` (where `beatDuration = 60000 / bpm`), exactly one click is
emitted regardless of how many whole beats were skipped, and `lastBeatTime`
advances by `floor (elapsed / beatDuration) * beatDuration`; in particular a
sample delayed by `5/2` of the beat duration emits one click and advances
`lastBeatTime` by exactly `2 * beatDuration`. -/
theorem animateStep_drift_correction (bpm lastBeat elapsed : ℚ)
    (hbpm : 0 < bpm) (h : 60000 / bpm ≤ elapsed) :
    (animateStep bpm lastBeat (lastBeat + elapsed)).clicks = 1 ∧
    (animateStep bpm lastBeat (lastBeat + elapsed)).lastBeatTime =
      lastBeat + (⌊elapsed / (60000 / bpm)⌋ : ℤ) * (60000 / bpm) ∧
    (elapsed = 5 / 2 * (60000 / bpm) →
      (animateStep bpm lastBeat (lastBeat + elapsed)).lastBeatTime =
        lastBeat + 2 * (60000 / bpm)) := by
  have hbd : (0 : ℚ) < 60000 / bpm := by positivity
  have helim : lastBeat + elapsed - lastBeat = elapsed := by ring
  have hres : animateStep bpm lastBeat (lastBeat + elapsed) =
      { lastBeatTime := lastBeat + (⌊elapsed / (60000 / bpm)⌋ : ℤ) * (60000 / bpm)
        clicks := 1
        dotPosition := jsMod elapsed (60000 / bpm) / (60000 / bpm) * 360 } := by
    unfold animateStep
    rw [helim, if_pos h]
  refine ⟨by rw [hres], by rw [hres], ?_⟩
  intro h25
  rw [hres]
  have hq : elapsed / (60000 / bpm) = 5 / 2 := by
    rw [h25, mul_div_assoc, div_self hbd.ne']
    norm_num
  have hfl : ⌊(5 / 2 : ℚ)⌋ = 2 := by
    rw [Int.floor_eq_iff] <;> norm_num
  rw [hq, hfl]
  push_cast
  ring

/-- Closed witness for C1 at bpm 120, lastBeatTime 0, a sample at t = 1250
(2.5 beat durations of 500 ms): one click, lastBeatTime advances to 1000. -/
theorem animateStep_drift_correction_witness :
    (0 : ℚ) < 120 ∧ (60000 : ℚ) / 120 ≤ 1250 ∧
    (animateStep 120 0 (0 + 1250)).clicks = 1 ∧
    (animateStep 120 0 (0 + 1250)).lastBeatTime = 0 + 2 * (60000 / 120) := by
  have h := animateStep_drift_correction 120 0 1250 (by norm_num) (by norm_num)
  exact ⟨by norm_num, by norm_num, h.1, h.2.2 (by norm_num)⟩

/-- C2: for every bpm in [30,240] and sample time `t ≥ lastBeatTime` (the
regime in which the JavaScript `%` agrees with `jsMod`), the dot position
equals `((t - lastBeatTime) mod beatDuration) / beatDuration` scaled to 360
degrees, lies in [0,360), and sampling at `lastBeatTime + k * beatDuration`
yields position 0 for every natural k. -/
theorem animateStep_phase (bpm lastBeat t : ℚ)
    (h1 : 30 ≤ bpm) (h2 : bpm ≤ 240) (ht : lastBeat ≤ t) :
    (animateStep bpm lastBeat t).dotPosition =
      jsMod (t - lastBeat) (60000 / bpm) / (60000 / bpm) * 360 ∧
    0 ≤ (animateStep bpm lastBeat t).dotPosition ∧
    (animateStep bpm lastBeat t).dotPosition < 360 ∧
    (∀ k : ℕ,
      (animateStep bpm lastBeat (lastBeat + (k : ℚ) * (60000 / bpm))).dotPosition = 0) := by
  have hbpm : (0 : ℚ) < bpm := by linarith
  have hbd : (0 : ℚ) < 60000 / bpm := by positivity
  refine ⟨animateStep_dotPosition bpm lastBeat t, ?_, ?_, ?_⟩
  · rw [animateStep_dotPosition]
    have := jsMod_nonneg (t - lastBeat) (60000 / bpm) hbd
    positivity
  · rw [animateStep_dotPosition]
    have hlt : jsMod (t - lastBeat) (60000 / bpm) / (60000 / bpm) < 1 :=
      (div_lt_one hbd).mpr (jsMod_lt _ _ hbd)
    nlinarith
  · intro k
    rw [animateStep_dotPosition]
    have helim : lastBeat + (k : ℚ) * (60000 / bpm) - lastBeat =
        (k : ℚ) * (60000 / bpm) := by ring
    rw [helim, jsMod_natCast_mul k _ hbd]
    simp

/-- Closed witness for C2 at bpm 120, lastBeatTime 0, t = 250: the dot
position is 180 degrees, inside [0,360), and t = 500 gives position 0. -/
theorem animateStep_phase_witness :
    (30 : ℚ) ≤ 120 ∧ (120 : ℚ) ≤ 240 ∧ (0 : ℚ) ≤ 250 ∧
    (animateStep 120 0 250).dotPosition =
      jsMod (250 - 0) (60000 / 120) / (60000 / 120) * 360 ∧
    0 ≤ (animateStep 120 0 250).dotPosition ∧
    (animateStep 120 0 250).dotPosition < 360 ∧
    (animateStep 120 0 (0 + (1 : ℕ) * (60000 / 120))).dotPosition = 0 := by
  have h := animateStep_phase 120 0 250 (by norm_num) (by norm_num) (by norm_num)
  exact ⟨by norm_num, by norm_num, by norm_num, h.1, h.2.1, h.2.2.1, h.2.2.2 1⟩

/-- Minimum tempo, `MIN_BPM = 30` in both variants. -/
def MIN_BPM : ℤ := 30

/-- Maximum tempo, `MAX_BPM = 240` in both variants. -/
def MAX_BPM : ℤ := 240

/-- Window update of `handleTap` (part_001 lines 234-240): append the new tap
timestamp, then if the window exceeds 8 entries drop the oldest
(`newTimes.shift()`). -/
def tapWindowPush (prev : List ℤ) (now : ℤ) : List ℤ :=
  if 8 < (prev ++ [now]).length then (prev ++ [now]).tail else prev ++ [now]

/-- Consecutive inter-tap differences, as built by the `for` loop of
`handleTap` (part_001 lines 244-247): `intervals[i-1] = newTimes[i] -
newTimes[i-1]`. -/
def consecutiveDiffs : List ℤ → List ℤ
  | a :: b :: rest => (b - a) :: consecutiveDiffs (b :: rest)
  | _ => []

/-- BPM estimate of `handleTap` (part_001 lines 243-253): defined when the
window has at least 2 entries, as `Math.round (60000 / avgInterval)` with
`avgInterval` the mean of the consecutive differences. -/
def tapEstimate (newTimes : List ℤ) : Option ℤ :=
  if 2 ≤ newTimes.length then
    some (jsRound (60000 /
      (((consecutiveDiffs newTimes).sum : ℚ) / ((consecutiveDiffs newTimes).length : ℚ))))
  else none

/-- Effect of one `handleTap` call (part_001 lines 234-262) on the tap window
and the tempo: push the timestamp into the window, and write the estimate to
the tempo exactly when it exists and satisfies `calculatedBpm >= MIN_BPM &&
calculatedBpm <= MAX_BPM && !isSlowingDown`. -/
def handleTapBpm (prev : List ℤ) (now bpm : ℤ) (isSlowingDown : Bool) :
    List ℤ × ℤ :=
  match tapEstimate (tapWindowPush prev now) with
  | some calculatedBpm =>
      if MIN_BPM ≤ calculatedBpm ∧ calculatedBpm ≤ MAX_BPM ∧ isSlowingDown = false then
        (tapWindowPush prev now, calculatedBpm)
      else (tapWindowPush prev now, bpm)
  | none => (tapWindowPush prev now, bpm)

/-- Sequence of `handleTap` calls outside the slowdown ramp, starting from an
empty tap window, threading window and tempo. -/
def runTaps (taps : List ℤ) (bpm : ℤ) : List ℤ × ℤ :=
  taps.foldl (fun s t => handleTapBpm s.1 t s.2 false) ([], bpm)

/-- C3: the tap window keeps at most the 8 most recent timestamps with the
oldest evicted first; when an estimate exists it is written to the tempo if
and only if it lies in [30,240] and the system is not in the slowdown ramp;
taps at 0, 500, 1000, 1500 ms yield an applied tempo of 120, and two taps
100 ms apart (estimate 600) leave the tempo unchanged. -/
theorem handleTap_spec (prev : List ℤ) (now bpm : ℤ) (slow : Bool) (e : ℤ)
    (hlen : prev.length ≤ 8)
    (hest : tapEstimate (tapWindowPush prev now) = some e) :
    (tapWindowPush prev now).length ≤ 8 ∧
    (prev.length < 8 → tapWindowPush prev now = prev ++ [now]) ∧
    (prev.length = 8 → tapWindowPush prev now = prev.tail ++ [now]) ∧
    ((handleTapBpm prev now bpm slow).2 =
      if 30 ≤ e ∧ e ≤ 240 ∧ slow = false then e else bpm) ∧
    (runTaps [0, 500, 1000, 1500] 70).2 = 120 ∧
    (runTaps [0, 100] 70).2 = 70 := by
  refine ⟨?_, ?_, ?_, ?_, ?_, ?_⟩
  · unfold tapWindowPush
    split
    · simp
      omega
    · simp at *
      omega
  · intro h
    unfold tapWindowPush
    rw [if_neg]
    simp
    omega
  · intro h
    unfold tapWindowPush
    rw [if_pos]
    · cases prev with
      | nil => simp at h
      | cons a l => simp
    · simp
      omega
  · unfold handleTapBpm
    rw [hest]
    simp only [MIN_BPM, MAX_BPM]
    split <;> rfl
  · norm_num [runTaps, List.foldl, handleTapBpm, tapWindowPush, tapEstimate,
      consecutiveDiffs, jsRound, MIN_BPM, MAX_BPM]
  · norm_num [runTaps, List.foldl, handleTapBpm, tapWindowPush, tapEstimate,
      consecutiveDiffs, jsRound, MIN_BPM, MAX_BPM]

/-- Closed witness for C3: third tap at 1000 after taps at 0 and 500, window
of length 2, estimate 120, applied to the tempo. -/
theorem handleTap_spec_witness :
    ([(0 : ℤ), 500].length ≤ 8 ∧
      tapEstimate (tapWindowPush [(0 : ℤ), 500] 1000) = some 120) ∧
    (handleTapBpm [(0 : ℤ), 500] 1000 70 false).2 =
      if (30 : ℤ) ≤ 120 ∧ (120 : ℤ) ≤ 240 ∧ false = false then 120 else 70 := by
  have hest : tapEstimate (tapWindowPush [(0 : ℤ), 500] 1000) = some 120 := by
    norm_num [tapEstimate, tapWindowPush, consecutiveDiffs, jsRound]
  have h := handleTap_spec [(0 : ℤ), 500] 1000 70 false 120 (by simp) hest
  exact ⟨⟨by simp, hest⟩, h.2.2.2.1⟩

/-- State read and written by the slowdown effect of part_001 (lines
347-391): the tempo, the play / slowdown / upgrade flags, the once-per-cycle
decrement guard `hasDecrementedThisCycleRef`, and the two timing-anchor refs.
The `displayBpm` mirror and the logging are omitted; they feed no claim. -/
structure SlowdownState where
  bpm : ℤ
  isPlaying : Bool
  isSlowingDown : Bool
  hasUpgraded : Bool
  hasDecrementedThisCycle : Bool
  startTime : ℚ
  lastBeatTime : ℚ
  deriving Repr, DecidableEq

/-- One run of the slowdown effect of part_001 (lines 347-391) at dot
position `dotPosition` and wall-clock `now`: active only while
`isSlowingDown && isPlaying && !hasUpgraded`; at the top of the cycle
(`dotPosition <= 5 || dotPosition >= 355`) with the per-cycle guard clear,
either stop playback (when `bpm - 5 <= MIN_BPM`) or decrement by 5, set the
guard, and back-date `startTimeRef` by `(dotPosition / 360) *
(60000 / newBpm)`, resyncing `lastBeatTimeRef` the same way when within the
same 5-degree band; the guard is cleared when `90 < dotPosition < 270`. -/
def slowdownOnDot (s : SlowdownState) (dotPosition now : ℚ) : SlowdownState :=
  if s.isSlowingDown = true ∧ s.isPlaying = true ∧ s.hasUpgraded = false then
    if (dotPosition ≤ 5 ∨ 355 ≤ dotPosition) ∧ s.hasDecrementedThisCycle = false then
      if s.bpm - 5 ≤ MIN_BPM then
        { s with isPlaying := false }
      else
        if dotPosition ≤ 5 ∨ 355 ≤ dotPosition then
          { s with bpm := s.bpm - 5
                   hasDecrementedThisCycle := true
                   startTime := now - dotPosition / 360 * (60000 / ((s.bpm - 5 : ℤ) : ℚ))
                   lastBeatTime := now - dotPosition / 360 * (60000 / ((s.bpm - 5 : ℤ) : ℚ)) }
        else
          { s with bpm := s.bpm - 5
                   hasDecrementedThisCycle := true
                   startTime := now - dotPosition / 360 * (60000 / ((s.bpm - 5 : ℤ) : ℚ)) }
    else if 90 < dotPosition ∧ dotPosition < 270 then
      { s with hasDecrementedThisCycle := false }
    else s
  else s

/-- C4: while slowing down, playing and not upgraded, a sample within 5
degrees of the top with the per-cycle guard clear decrements the tempo by
exactly 5 unless the result would be at or below 30, in which case playback
stops with the tempo unchanged; a top sample with the guard set changes
nothing; and when the guard is set it is cleared exactly when the position
lies strictly inside the 90-270 degree band, so at most one decrement occurs
per revolution. -/
theorem slowdownOnDot_spec (s : SlowdownState) (d now : ℚ)
    (hs : s.isSlowingDown = true) (hp : s.isPlaying = true)
    (hu : s.hasUpgraded = false) :
    ((d ≤ 5 ∨ 355 ≤ d) → s.hasDecrementedThisCycle = false → 30 < s.bpm - 5 →
      (slowdownOnDot s d now).bpm = s.bpm - 5 ∧
      (slowdownOnDot s d now).hasDecrementedThisCycle = true ∧
      (slowdownOnDot s d now).isPlaying = true) ∧
    ((d ≤ 5 ∨ 355 ≤ d) → s.hasDecrementedThisCycle = false → s.bpm - 5 ≤ 30 →
      (slowdownOnDot s d now).isPlaying = false ∧
      (slowdownOnDot s d now).bpm = s.bpm) ∧
    ((d ≤ 5 ∨ 355 ≤ d) → s.hasDecrementedThisCycle = true →
      slowdownOnDot s d now = s) ∧
    (s.hasDecrementedThisCycle = true →
      ((slowdownOnDot s d now).hasDecrementedThisCycle = false ↔
        (90 < d ∧ d < 270))) := by
  have hmin : MIN_BPM = 30 := rfl
  unfold slowdownOnDot
  rw [if_pos ⟨hs, hp, hu⟩]
  have hnotmid : (d ≤ 5 ∨ 355 ≤ d) → ¬(90 < d ∧ d < 270) := by
    rintro (h | h) ⟨h1, h2⟩ <;> linarith
  refine ⟨?_, ?_, ?_, ?_⟩
  · intro htop hflag hbpm
    rw [if_pos ⟨htop, hflag⟩, if_neg (by omega), if_pos htop]
    exact ⟨rfl, rfl, hp⟩
  · intro htop hflag hbpm
    rw [if_pos ⟨htop, hflag⟩, if_pos (by omega)]
    exact ⟨rfl, rfl⟩
  · intro htop hflag
    rw [if_neg (by simp [hflag]), if_neg (hnotmid htop)]
  · intro hflag
    rw [if_neg (by simp [hflag])]
    split
    · exact iff_of_true rfl (by assumption)
    · exact iff_of_false (by simp [hflag]) (by assumption)

/-- Closed witness for C4: slowing down at 100 BPM, playing, not upgraded,
guard clear, sampled at the top (0 degrees): the tempo becomes 95, the guard
is set and playback continues. -/
theorem slowdownOnDot_spec_witness :
    ((0 : ℚ) ≤ 5 ∨ (355 : ℚ) ≤ 0) ∧
    (slowdownOnDot ⟨100, true, true, false, false, 0, 0⟩ 0 12000).bpm = 95 ∧
    (slowdownOnDot ⟨100, true, true, false, false, 0, 0⟩ 0 12000).hasDecrementedThisCycle
      = true ∧
    (slowdownOnDot ⟨100, true, true, false, false, 0, 0⟩ 0 12000).isPlaying = true := by
  have h := slowdownOnDot_spec ⟨100, true, true, false, false, 0, 0⟩ 0 12000 rfl rfl rfl
  have h1 := h.1 (Or.inl (by norm_num)) rfl (by norm_num)
  exact ⟨Or.inl (by norm_num), h1.1, h1.2.1, h1.2.2⟩

/-- Tier-1 repeat period of the hold-acceleration ramp: the `setInterval`
delay of 500 ms used on press (part_000 line 346, part_001 line 582, and the
mouse and decrease twins). -/
def tier1Period : ℕ := 500

/-- Tier-2 repeat period: the 300 ms `setInterval` delay installed by the
first acceleration timeout. -/
def tier2Period : ℕ := 300

/-- Tier-3 repeat period: the 200 ms `setInterval` delay installed by the
second acceleration timeout. -/
def tier3Period : ℕ := 200

/-- Delay of the first acceleration `setTimeout`: 3000 ms from press. -/
def firstAccelerationDelay : ℕ := 3000

/-- Delay of the second acceleration `setTimeout`: 2000 ms, scheduled from
inside the first acceleration callback, hence 5000 ms from press. -/
def secondAccelerationDelay : ℕ := 2000

/-- Whether a tempo step fires `t` milliseconds into a continuous hold of a
tempo control.  Derived from the timer structure shared by all eight hold
handlers (for example part_000 `handleIncreaseTouchStart` lines 334-375 and
part_001 `handleIncreaseMouseDown` lines 626-661): one immediate step on
press; a 500 ms interval until the first acceleration timeout at 3000 ms,
which clears that interval, applies one immediate step, and installs a 300 ms
interval; a second timeout 2000 ms later (5000 ms from press) clears it,
applies one immediate step, and installs a 200 ms interval.  An interval
cleared by a tier-switch timeout is modelled as producing no tick at the
switch instant itself; the switch contributes the step at that instant. -/
def holdStepAt (t : ℕ) : Bool :=
  t == 0 ||
  (decide (0 < t) && decide (t < firstAccelerationDelay) && t % tier1Period == 0) ||
  t == firstAccelerationDelay ||
  (decide (firstAccelerationDelay < t) &&
    decide (t < firstAccelerationDelay + secondAccelerationDelay) &&
    (t - firstAccelerationDelay) % tier2Period == 0) ||
  t == firstAccelerationDelay + secondAccelerationDelay ||
  (decide (firstAccelerationDelay + secondAccelerationDelay < t) &&
    (t - (firstAccelerationDelay + secondAccelerationDelay)) % tier3Period == 0)

/-- All step instants of a hold lasting `horizon` milliseconds. -/
def holdStepTimes (horizon : ℕ) : List ℕ :=
  (List.range (horizon + 1)).filter holdStepAt

/-- One repeat-interval step of the increase control (`setBpm (prev =>
prev < MAX_BPM ? prev + BPM_STEP : prev)` with `BPM_STEP = 1`). -/
def holdIncreaseStep (prev : ℤ) : ℤ := if prev < MAX_BPM then prev + 1 else prev

/-- One repeat-interval step of the decrease control (`setBpm (prev =>
prev > MIN_BPM ? prev - BPM_STEP : prev)`). -/
def holdDecreaseStep (prev : ℤ) : ℤ := if MIN_BPM < prev then prev - 1 else prev

set_option maxRecDepth 40000 in
/-- C5: a 6000 ms hold produces steps at 0, 500, ..., 3000, then every
300 ms up to the switch at 5000 ms, then every 200 ms; the tier switches are
exactly at 3000 ms and 5000 ms (an immediate extra step fires at each
switch), and from tempo 70 the 19 steps of such a hold on the increase
control reach tempo 89. -/
theorem holdSchedule_spec :
    holdStepTimes 6000 = [0, 500, 1000, 1500, 2000, 2500, 3000, 3300, 3600, 3900,
      4200, 4500, 4800, 5000, 5200, 5400, 5600, 5800, 6000] ∧
    firstAccelerationDelay = 3000 ∧
    firstAccelerationDelay + secondAccelerationDelay = 5000 ∧
    (holdStepTimes 6000).foldl (fun b _ => holdIncreaseStep b) 70 = 89 := by
  refine ⟨by decide, rfl, rfl, by decide⟩

/-- Timer bookkeeping of part_001 during a decrease hold session: the two
interval refs `increaseIntervalRef` and `decreaseIntervalRef`, the
`decreaseTimeoutsRef` list, and the ids of intervals created and not yet
cancelled with `clearInterval`.  Interval ids: 1 = tier-1 500 ms decrement
interval, 2 = tier-2 300 ms, 3 = tier-3 200 ms; timeout ids: 10 =
firstAcceleration, 11 = secondAcceleration.  The increase-side timeout list
is omitted: it stays empty throughout a decrease session. -/
structure HoldTimers where
  increaseInterval : Option ℕ
  decreaseInterval : Option ℕ
  decreaseTimeouts : List ℕ
  activeIntervals : List ℕ
  deriving Repr, DecidableEq

/-- The `cleanupAllIntervals` routine (part_001 lines 123-159) restricted to
the modelled fields: clear and null both interval refs and empty the timeout
list. -/
def cleanupIntervals (s : HoldTimers) : HoldTimers :=
  { increaseInterval := none
    decreaseInterval := none
    decreaseTimeouts := []
    activeIntervals :=
      (match s.increaseInterval with
        | some i => match s.decreaseInterval with
          | some j => (s.activeIntervals.erase i).erase j
          | none => s.activeIntervals.erase i
        | none => match s.decreaseInterval with
          | some j => s.activeIntervals.erase j
          | none => s.activeIntervals) }

/-- Press of the decrease control, part_001 `handleDecreaseTouchStart` lines
677-687 (timer part): run cleanup, install the tier-1 500 ms interval in
`decreaseIntervalRef`, and push the first acceleration timeout. -/
def handleDecreaseTouchStartTimers (s : HoldTimers) : HoldTimers :=
  let s1 := cleanupIntervals s
  { s1 with decreaseInterval := some 1
            activeIntervals := s1.activeIntervals ++ [1]
            decreaseTimeouts := s1.decreaseTimeouts ++ [10] }

/-- The first acceleration timeout firing (part_001 lines 689-696, 709-713):
if `decreaseIntervalRef` is set, clear that interval (the ref itself is not
nulled), store the tier-2 300 ms interval in it, and push the second
acceleration timeout. -/
def firstAccelerationFires (s : HoldTimers) : HoldTimers :=
  match s.decreaseInterval with
  | some i =>
      { s with decreaseInterval := some 2
               activeIntervals := s.activeIntervals.erase i ++ [2]
               decreaseTimeouts := s.decreaseTimeouts ++ [11] }
  | none => s

/-- The second acceleration timeout firing (part_001 lines 698-707): if
`decreaseIntervalRef` is set, clear that interval, then store the tier-3
200 ms decrement interval in `increaseIntervalRef` — this is what the source
does on lines 703-705 (and likewise 755-757 in the mouse path): the new
decrement interval is written into the increase-side ref. -/
def secondAccelerationFires (s : HoldTimers) : HoldTimers :=
  match s.decreaseInterval with
  | some i =>
      { s with increaseInterval := some 3
               activeIntervals := s.activeIntervals.erase i ++ [3] }
  | none => s

/-- Release of the decrease control, part_001 `handleDecreaseTouchEnd` lines
716-729: clear and null `decreaseIntervalRef`, cancel every timeout in
`decreaseTimeoutsRef` and empty the list.  `increaseIntervalRef` is not
touched. -/
def handleDecreaseTouchEndTimers (s : HoldTimers) : HoldTimers :=
  match s.decreaseInterval with
  | some i =>
      { s with decreaseInterval := none
               activeIntervals := s.activeIntervals.erase i
               decreaseTimeouts := [] }
  | none => { s with decreaseTimeouts := [] }

/-- Timer state after a full decrease hold session in part_001: press, first
acceleration at 3000 ms, second acceleration at 5000 ms, then release. -/
def decreaseHoldTrace : HoldTimers :=
  handleDecreaseTouchEndTimers (secondAccelerationFires (firstAccelerationFires
    (handleDecreaseTouchStartTimers ⟨none, none, [], []⟩)))

/-- C6 evaluation at the failing input: after a decrease hold in part_001
long enough to reach the third tier and a release, the tier-3 200 ms
decrement interval (id 3) is still active — it sits in `increaseIntervalRef`,
which the decrease release handler never clears — so decrement steps keep
firing after release, and one such step still moves the tempo. -/
theorem decreaseRelease_leaves_tier3_interval :
    decreaseHoldTrace.activeIntervals = [3] ∧
    decreaseHoldTrace.increaseInterval = some 3 ∧
    decreaseHoldTrace.decreaseInterval = none ∧
    decreaseHoldTrace.decreaseTimeouts = [] ∧
    holdDecreaseStep 100 = 99 := by
  refine ⟨by decide, by decide, by decide, by decide, by decide⟩

/-- Timing anchor of a variant: `startTimeRef`, `lastBeatTimeRef` (both
initialized to `null`) and the `dotPosition` state. -/
structure Anchor where
  startTime : Option ℚ
  lastBeatTime : Option ℚ
  dotPosition : ℚ
  deriving Repr, DecidableEq

/-- The `resetTiming` routine (part_000 lines 164-177, part_001 lines
403-412, timing part): set both anchor refs to `performance.now()` and the
dot position to 0.  The audio-context resume it also performs is outside the
timing model. -/
def resetTiming (now : ℚ) : Anchor :=
  { startTime := some now, lastBeatTime := some now, dotPosition := 0 }

/-- Effect of the part_000 `useEffect` on `[bpm]` (lines 149-161) on the
anchor: while playing, `resetTiming` runs (the animation restart and the
75-percent-flag reset do not touch the anchor refs); otherwise nothing
happens. -/
def onBpmChangeP0 (isPlaying : Bool) (now : ℚ) (a : Anchor) : Anchor :=
  if isPlaying = true then resetTiming now else a

/-- Effect of the part_001 `useEffect` on `[bpm, isSlowingDown]` (lines
393-400) on the anchor: the body returns early during slowdown and otherwise
only carries a comment that animation continues smoothly — it performs no
state or ref write in either case. -/
def onBpmChangeP1 (isSlowingDown : Bool) (a : Anchor) : Anchor := a

/-- Counterexample to C7: in part_001, a manual tempo change while playing
and not slowing down leaves the anchor untouched.  With `lastBeatTime = 0`,
dot at 180 degrees and the change happening at `now = 500`, the effect
neither resets `lastBeatTime` to `now` nor restarts the phase from zero. -/
theorem onBpmChangeP1_no_reset :
    (onBpmChangeP1 false ⟨some 0, some 0, 180⟩).lastBeatTime = some 0 ∧
    (onBpmChangeP1 false ⟨some 0, some 0, 180⟩).dotPosition = 180 ∧
    ¬((onBpmChangeP1 false ⟨some 0, some 0, 180⟩).lastBeatTime = some 500 ∧
      (onBpmChangeP1 false ⟨some 0, some 0, 180⟩).dotPosition = 0) := by
  refine ⟨rfl, rfl, ?_⟩
  rintro ⟨h, -⟩
  simp only [onBpmChangeP1, Option.some.injEq] at h
  norm_num at h

/-- C7 as amended: in the plain circular variant (part_000), every tempo
change while playing resets the anchor to `startTime = lastBeatTime = now`
and snaps the phase back to zero, and does nothing when stopped; in the
trial variant (part_001), manual tempo changes never touch the timing
anchor — the animation continues from the existing anchor. -/
theorem onBpmChange_anchor (now : ℚ) (a : Anchor) (sd : Bool) :
    (onBpmChangeP0 true now a).startTime = some now ∧
    (onBpmChangeP0 true now a).lastBeatTime = some now ∧
    (onBpmChangeP0 true now a).dotPosition = 0 ∧
    onBpmChangeP0 false now a = a ∧
    onBpmChangeP1 sd a = a :=
  ⟨rfl, rfl, rfl, rfl, rfl⟩

/-- Single increase step, `increaseTempo` (part_000 lines 302-306; part_001
lines 520-524 adds an `!isSlowingDown` guard, which cannot change the written
value, only suppress the write). -/
def increaseTempo (bpm : ℤ) : ℤ := if bpm < MAX_BPM then bpm + 1 else bpm

/-- Single decrease step, `decreaseTempo`. -/
def decreaseTempo (bpm : ℤ) : ℤ := if MIN_BPM < bpm then bpm - 1 else bpm

/-- Tempo write of a tap estimate: applied only when the estimate is within
`[MIN_BPM, MAX_BPM]` (the `!isSlowingDown` conjunct suppresses the write but
never changes the written value). -/
def tapApplyBpm (bpm est : ℤ) : ℤ :=
  if MIN_BPM ≤ est ∧ est ≤ MAX_BPM then est else bpm

/-- Tempo write of one slowdown top-of-cycle crossing (part_001 lines
353-364): decrement by 5 unless the result would be at or below `MIN_BPM`,
in which case playback stops and the tempo is left unchanged. -/
def slowdownDecrement (bpm : ℤ) : ℤ := if bpm - 5 ≤ MIN_BPM then bpm else bpm - 5

/-- The defensive reset at the top of part_001 `togglePlay` (lines 506-511):
a nonpositive tempo is replaced by 70. -/
def togglePlayBpm (bpm : ℤ) : ℤ := if bpm ≤ 0 then 70 else bpm

/-- The tempo-writing operations of the system: single steps, hold-repeat
steps, a tap application carrying an arbitrary integer estimate, a slowdown
decrement, play start (which captures `originalBpmRef`), and the
slowdown-triggered stop (which restores it, part_001 lines 330-337). -/
inductive TempoOp where
  | increase
  | decrease
  | holdIncrease
  | holdDecrease
  | tapApp (est : ℤ)
  | slowdownBeat
  | playStart
  | slowdownStop
  deriving Repr, DecidableEq

/-- Tempo-relevant state: the current tempo and the captured
`originalBpmRef` (initialized to 70 in part_001 line 47). -/
structure TempoSt where
  bpm : ℤ
  originalBpm : ℤ
  deriving Repr, DecidableEq

/-- Application of one tempo-writing operation. -/
def applyTempoOp (s : TempoSt) : TempoOp → TempoSt
  | .increase => { s with bpm := increaseTempo s.bpm }
  | .decrease => { s with bpm := decreaseTempo s.bpm }
  | .holdIncrease => { s with bpm := holdIncreaseStep s.bpm }
  | .holdDecrease => { s with bpm := holdDecreaseStep s.bpm }
  | .tapApp est => { s with bpm := tapApplyBpm s.bpm est }
  | .slowdownBeat => { s with bpm := slowdownDecrement s.bpm }
  | .playStart => { s with originalBpm := s.bpm }
  | .slowdownStop => { s with bpm := s.originalBpm }

/-- Initial tempo state: `useState(70)` and `originalBpmRef = 70`. -/
def initTempoSt : TempoSt := ⟨70, 70⟩

/-- Tempo state after a sequence of tempo-writing operations from startup. -/
def runTempoOps (ops : List TempoOp) : TempoSt :=
  ops.foldl applyTempoOp initTempoSt

/-- Integrality and bounds of the tempo state. -/
def TempoInBounds (s : TempoSt) : Prop :=
  30 ≤ s.bpm ∧ s.bpm ≤ 240 ∧ 30 ≤ s.originalBpm ∧ s.originalBpm ≤ 240

/-- Every tempo-writing operation preserves the bounds. -/
lemma applyTempoOp_inBounds (s : TempoSt) (op : TempoOp)
    (h : TempoInBounds s) : TempoInBounds (applyTempoOp s op) := by
  obtain ⟨h1, h2, h3, h4⟩ := h
  cases op <;>
    simp only [applyTempoOp, increaseTempo, decreaseTempo, holdIncreaseStep,
      holdDecreaseStep, tapApplyBpm, slowdownDecrement, TempoInBounds,
      MIN_BPM, MAX_BPM] <;>
    first
      | (split_ifs <;> omega)
      | omega

/-- Folding tempo-writing operations preserves the bounds. -/
lemma foldlTempoOps_inBounds :
    ∀ (ops : List TempoOp) (s : TempoSt), TempoInBounds s →
      TempoInBounds (ops.foldl applyTempoOp s)
  | [], _, hs => hs
  | op :: rest, s, hs =>
      foldlTempoOps_inBounds rest _ (applyTempoOp_inBounds s op hs)

/-- Any operation sequence from startup stays within bounds. -/
lemma runTempoOps_inBounds (ops : List TempoOp) :
    TempoInBounds (runTempoOps ops) :=
  foldlTempoOps_inBounds ops initTempoSt ⟨by decide, by decide, by decide, by decide⟩

/-- C8: starting from the initial tempo 70, every sequence of tempo-writing
operations keeps the tempo an integer in [30,240]; at the bounds, increase,
decrease and an out-of-range tap estimate are ignored rather than clamping
past the bound or raising. -/
theorem tempo_bounds_invariant (ops : List TempoOp) :
    30 ≤ (runTempoOps ops).bpm ∧ (runTempoOps ops).bpm ≤ 240 ∧
    increaseTempo 240 = 240 ∧ decreaseTempo 30 = 30 ∧
    holdIncreaseStep 240 = 240 ∧ holdDecreaseStep 30 = 30 ∧
    tapApplyBpm 70 600 = 70 ∧ tapApplyBpm 70 20 = 70 := by
  have h := runTempoOps_inBounds ops
  exact ⟨h.1, h.2.1, by decide, by decide, by decide, by decide, by decide, by decide⟩

/-- C10: in every reachable tempo state of either variant the tempo is
strictly positive, so the beat-duration computation `60000 / bpm` in the
animation loop never divides by zero (the product with the tempo recovers
60000 exactly), and the recovery branch of part_001 `togglePlay` that would
reset a nonpositive tempo to 70 is never taken. -/
theorem bpm_positive_no_div_by_zero (ops : List TempoOp) :
    0 < (runTempoOps ops).bpm ∧
    ((runTempoOps ops).bpm : ℚ) ≠ 0 ∧
    ((runTempoOps ops).bpm : ℚ) * (60000 / ((runTempoOps ops).bpm : ℚ)) = 60000 ∧
    togglePlayBpm (runTempoOps ops).bpm = (runTempoOps ops).bpm := by
  have h := runTempoOps_inBounds ops
  obtain ⟨h1, h2, -, -⟩ := h
  have hpos : 0 < (runTempoOps ops).bpm := by omega
  have hq : ((runTempoOps ops).bpm : ℚ) ≠ 0 := by
    exact_mod_cast hpos.ne'
  refine ⟨hpos, hq, by field_simp, ?_⟩
  unfold togglePlayBpm
  rw [if_neg (by omega)]

/-- Initial value of the `scaleEffect` state: `useState(1)` in both variants,
the scale in force before playback has ever started. -/
def initialScaleEffect : ℚ := 1

/-- The zoom-scale computation of the `useEffect` on `[dotPosition,
isPlaying, hasReached75Percent]` (part_000 lines 204-238, identical part_001
lines 442-464): active only while playing after the 75-percent latch; inside
the arc `dotPosition >= 270 || dotPosition <= 90` the scale interpolates
between 0.9 at the top and 0.7 at 90 degrees from it, with
`distanceFromTop = 360 - dotPosition` on the left side and `dotPosition` on
the right; everywhere else 0.7. -/
def zoomScale (isPlaying hasReached75Percent : Bool) (dotPosition : ℚ) : ℚ :=
  if isPlaying = true ∧ hasReached75Percent = true then
    if 270 ≤ dotPosition ∨ dotPosition ≤ 90 then
      0.7 + 0.2 * (1 - (if 270 ≤ dotPosition then 360 - dotPosition else dotPosition) / 90)
    else 0.7
  else 0.7

/-- The one-shot 75-percent latch (part_000 lines 198-202, part_001
`handle75Percent` lines 432-440): set once the dot reaches 270 degrees while
playing, never cleared by this effect. -/
def updateHasReached75 (isPlaying : Bool) (dotPosition : ℚ)
    (hasReached75Percent : Bool) : Bool :=
  if isPlaying = true ∧ 270 ≤ dotPosition ∧ hasReached75Percent = false then true
  else hasReached75Percent

/-- C9: the scale state starts at 1.0 before playback; while playing before
the latch has triggered the computed scale is 0.7; the latch triggers at
exactly 270 degrees; once latched the scale is
`0.7 + 0.2 * (1 - distanceFromTop / 90)` on the arc through the top — 0.9 at
the top, 0.7 at 90 and at 270 degrees — and 0.7 outside the arc. -/
theorem zoomScale_spec :
    initialScaleEffect = 1 ∧
    (∀ d : ℚ, zoomScale true false d = 0.7) ∧
    (∀ d : ℚ, 270 ≤ d → d ≤ 360 →
      zoomScale true true d = 0.7 + 0.2 * (1 - (360 - d) / 90)) ∧
    (∀ d : ℚ, 0 ≤ d → d ≤ 90 →
      zoomScale true true d = 0.7 + 0.2 * (1 - d / 90)) ∧
    (∀ d : ℚ, 90 < d → d < 270 → zoomScale true true d = 0.7) ∧
    zoomScale true true 0 = 0.9 ∧
    zoomScale true true 90 = 0.7 ∧
    zoomScale true true 270 = 0.7 ∧
    updateHasReached75 true 270 false = true := by
  refine ⟨rfl, ?_, ?_, ?_, ?_, ?_, ?_, ?_, ?_⟩
  · intro d
    simp [zoomScale]
  · intro d hd _
    rw [zoomScale, if_pos ⟨rfl, rfl⟩, if_pos (Or.inl hd), if_pos hd]
  · intro d _ hd
    rw [zoomScale, if_pos ⟨rfl, rfl⟩, if_pos (Or.inr hd), if_neg (by intro h; linarith)]
  · intro d h1 h2
    rw [zoomScale, if_pos ⟨rfl, rfl⟩, if_neg]
    rintro (h | h) <;> linarith
  · rw [zoomScale, if_pos ⟨rfl, rfl⟩, if_pos (by norm_num), if_neg (by norm_num)]
    norm_num
  · rw [zoomScale, if_pos ⟨rfl, rfl⟩, if_pos (by norm_num), if_neg (by norm_num)]
    norm_num
  · rw [zoomScale, if_pos ⟨rfl, rfl⟩, if_pos (by norm_num), if_pos (by norm_num)]
    norm_num
  · rw [updateHasReached75, if_pos ⟨rfl, by norm_num, rfl⟩]

/-- Closed witness for C9 at dot position 315 in the latched state: the
scale is 0.8, halfway between 0.7 and 0.9. -/
theorem zoomScale_spec_witness :
    (270 : ℚ) ≤ 315 ∧ (315 : ℚ) ≤ 360 ∧
    zoomScale true true 315 = 0.7 + 0.2 * (1 - (360 - 315) / 90) := by
  exact ⟨by norm_num, by norm_num,
    zoomScale_spec.2.2.1 315 (by norm_num) (by norm_num)⟩

end CircleMetronome
